import Mathlib

/-!
Shallow embedding of the account-activity aggregation layer of the
causify-ai/tutorials repository: the Asana statistics notebook
(src/tutorial_asana/tutorial_asana.py) and the GitHub utility module
(src/tutorial_github/utils.py), together with the spec-level contracts
for the Window Fetcher and Aggregator whose concrete functions in the
source are unimplemented stubs (bodies consisting of a single pass
statement).  Python exceptions are modelled with Except, Python
dictionaries with insertion-ordered association lists, datetimes with
natural-number timestamps, and os.getenv with an explicit optional
environment value.
-/

namespace Tutorials

/-- Python exception classes that appear in the source or the spec's
error taxonomy. -/
inductive PyError where
  | valueError (msg : String)
  | validationError (msg : String)
  | notFoundError (msg : String)
  deriving DecidableEq, Repr

/-! ## Asana notebook: tasks and per-user grouping -/

/-- One row of the DataFrame returned by get_tasks_by_date_range in the
Asana notebook, with columns task_id, name, assignee, created_at,
completed_at.  The assignee column is nullable (NaN is modelled as
none). -/
structure Task where
  task_id : String
  name : String
  assignee : Option String
  created_at : Nat
  completed_at : Option Nat
  deriving DecidableEq, Repr

/-- Embedding of the notebook line
tasks_created_by_user = created_tasks_df.groupby("assignee")["task_id"].count().reset_index()
(src/tutorial_asana/tutorial_asana.py:260).  Pandas groupby drops rows
whose key is null (dropna=True by default) and sorts the remaining keys
ascending (sort=True by default); count() on the task_id column counts
the rows of each group since task_id is never null. -/
def tasks_created_by_user (tasks : List Task) : List (String × Nat) :=
  (((tasks.filterMap (fun t => t.assignee)).dedup).insertionSort (fun a b => a ≤ b)).map
    (fun k => (k, (tasks.filter (fun t => t.assignee = some k)).length))

/-! ## GitHubAPI construction (src/tutorial_github/utils.py:20-33) -/

/-- The state a successfully constructed GitHubAPI object carries that
the claims observe: the resolved access token.  The PyGithub client
handle built from it is opaque to this development. -/
structure GitHubAPI where
  access_token : String
  deriving DecidableEq, Repr

/-- Python truthiness of an Optional[str]: None and the empty string are
falsy, every other string is truthy. -/
def pyTruthy : Option String → Bool
  | none => false
  | some s => s != ""

/-- Embedding of GitHubAPI.__init__ (src/tutorial_github/utils.py:20-33).
The constructor computes
self.access_token = access_token or os.getenv("GITHUB_ACCESS_TOKEN")
and raises ValueError when the result is falsy.  The environment is
passed explicitly: env_token is the value of GITHUB_ACCESS_TOKEN, none
when unset.  The base_url branch only selects which PyGithub constructor
is called and is not observable here. -/
def GitHubAPI_init (access_token : Option String) (env_token : Option String) :
    Except PyError GitHubAPI :=
  let tok := if pyTruthy access_token then access_token else env_token
  match tok with
  | some s =>
      if s = "" then
        .error (.valueError "GitHub Access Token is required. Set it as an environment variable or pass it explicitly.")
      else
        .ok ⟨s⟩
  | none =>
      .error (.valueError "GitHub Access Token is required. Set it as an environment variable or pass it explicitly.")

/-! ## GitHub utility APIs (src/tutorial_github/utils.py:192-240) -/

/-- An organization or user object returned by the PyGithub client; the
source only calls owner.get_repos() and reads each repo.name, so the
owner is modelled by that list of repository names. -/
structure Owner where
  repos : List String
  deriving DecidableEq, Repr

/-- A repository object returned by client.get_repo; the source only
iterates repo.get_contributors() reading each contributor.login, a
network call which may itself raise, so it is modelled as an Except of
the login list. -/
structure Repo where
  contributors : Except PyError (List String)
  deriving Repr

/-- The PyGithub client handle, restricted to the three methods the
embedded functions call.  Each method is a pure map from the argument to
the outcome the live service would produce during the run. -/
structure Github where
  get_organization : String → Except PyError Owner
  get_user : String → Except PyError Owner
  get_repo : String → Except PyError Repo

/-- The dictionary returned by get_repo_names. -/
structure RepoNamesResult where
  owner : String
  repositories : List String
  deriving DecidableEq, Repr

/-- Embedding of get_repo_names (src/tutorial_github/utils.py:192-216).
The bare except clauses catch every exception, so any failure of
get_organization falls through to get_user, and any failure of get_user
raises the ValueError.  owner.get_repos() is embedded as the owner's
repos field. -/
def get_repo_names (client : Github) (org_or_user_name : String) :
    Except PyError RepoNamesResult :=
  match client.get_organization org_or_user_name with
  | .ok owner => .ok ⟨org_or_user_name, owner.repos⟩
  | .error _ =>
      match client.get_user org_or_user_name with
      | .ok owner => .ok ⟨org_or_user_name, owner.repos⟩
      | .error _ =>
          .error (.valueError (org_or_user_name ++ " is neither a valid GitHub user nor organization."))

/-- Python dict assignment d[k] = v on an insertion-ordered association
list: an existing key keeps its position and gets the new value, a new
key is appended. -/
def dictInsert (d : List (String × α)) (k : String) (v : α) : List (String × α) :=
  if ∃ p ∈ d, p.1 = k then
    d.map (fun p => if p.1 = k then (k, v) else p)
  else
    d ++ [(k, v)]

/-- Python dict read d[k] on an insertion-ordered association list. -/
def dictLookup (d : List (String × α)) (n : String) : Option α :=
  match d with
  | [] => none
  | p :: rest => if p.1 = n then some p.2 else dictLookup rest n

/-- The body of the try block of get_github_contributors for one
repository name: fetch the repo, then the logins of its contributors;
either step may raise. -/
def fetchContributors (client : Github) (repo_name : String) :
    Except PyError (List String) := do
  let repo ← client.get_repo repo_name
  repo.contributors

/-- Embedding of get_github_contributors (src/tutorial_github/utils.py:219-240).
For each repository name the try block fetches the contributor logins;
on any exception the except clause logs the error and stores an empty
list for that name instead, so the loop never raises and every name
receives an entry. -/
def get_github_contributors (client : Github) (repo_names : List String) :
    List (String × List String) :=
  repo_names.foldl
    (fun result repo_name =>
      match fetchContributors client repo_name with
      | .ok contributors => dictInsert result repo_name contributors
      | .error _ => dictInsert result repo_name [])
    []

/-! ## Spec-modelled Window Fetcher and Aggregator

The global and per-user metrics functions of src/tutorial_github/utils.py
(get_total_commits, get_total_prs, get_prs_not_merged,
get_issues_without_assignee, get_commits_by_person, get_prs_by_person,
get_prs_not_merged_by_person) are unimplemented stubs whose bodies are a
single pass statement, and the generalized aggregate contract has no
concrete function in the source.  The definitions below are therefore
modelled from the spec (sections 3, 4.2, 4.4 and 7). -/

/-- Modelled from the spec: the Entity kinds of the data model (section 3);
missing from src/ because the metrics functions that would produce them
are pass stubs. -/
inductive EntityKind where
  | commit
  | pull_request
  | issue
  | task
  deriving DecidableEq, Repr

/-- Modelled from the spec: one unit of work (section 3), with identifier,
kind, nullable actor, created_at, nullable closed_at and scope; missing
from src/ because the metrics functions are pass stubs. -/
structure Entity where
  identifier : String
  kind : EntityKind
  actor : Option String
  created_at : Nat
  closed_at : Option Nat
  scope : String
  deriving DecidableEq, Repr

/-- Modelled from the spec: a sub-entity attached to one Entity
(section 3); missing from src/ together with the Relation Fetcher
contract it serves. -/
structure Relation where
  parent_id : String
  author : String
  created_at : Nat
  text : String
  deriving DecidableEq, Repr

/-- Modelled from the spec: a half-open time window [start, end)
(section 3).  The end field is named end_ because end is a Lean
keyword. -/
structure TimeWindow where
  start : Nat
  end_ : Nat
  deriving DecidableEq, Repr

/-- Modelled from the spec: whether a query selects entities by creation
or by completion (section 4.2: created_at for created queries, closed_at
for completed queries). -/
inductive QueryStatus where
  | created
  | completed
  deriving DecidableEq, Repr

/-- Modelled from the spec: the timestamp of an entity that is relevant
to a query (section 4.2). -/
def relevantTimestamp (status : QueryStatus) (e : Entity) : Option Nat :=
  match status with
  | .created => some e.created_at
  | .completed => e.closed_at

/-- Membership of a timestamp in the half-open window [start, end). -/
def inWindow (w : TimeWindow) (t : Nat) : Bool :=
  w.start ≤ t && t < w.end_

/-- Modelled from the spec: the upstream source seen by the Window
Fetcher, returning the concatenated pages of raw entities for one scope
element (section 4.2). -/
structure FetchClient where
  rawEntities : String → List Entity

/-- Result ordering of the Window Fetcher: ascending by created_at, ties
broken by identifier under string comparison (spec section 4.2). -/
def entityLE (a b : Entity) : Prop :=
  a.created_at < b.created_at ∨
    (a.created_at = b.created_at ∧ a.identifier ≤ b.identifier)

instance : DecidableRel entityLE := fun a b => by
  unfold entityLE; infer_instance

instance : IsTotal Entity entityLE where
  total a b := by
    rcases Nat.lt_trichotomy a.created_at b.created_at with h | h | h
    · exact Or.inl (Or.inl h)
    · rcases le_total a.identifier b.identifier with h2 | h2
      · exact Or.inl (Or.inr ⟨h, h2⟩)
      · exact Or.inr (Or.inr ⟨h.symm, h2⟩)
    · exact Or.inr (Or.inl h)

instance : IsTrans Entity entityLE where
  trans a b c hab hbc := by
    rcases hab with h1 | ⟨e1, i1⟩
    · rcases hbc with h2 | ⟨e2, _⟩
      · exact Or.inl (h1.trans h2)
      · exact Or.inl (e2 ▸ h1)
    · rcases hbc with h2 | ⟨e2, i2⟩
      · exact Or.inl (e1 ▸ h2)
      · exact Or.inr ⟨e1.trans e2, i1.trans i2⟩

/-- Modelled from the spec: whether the relevant timestamp of an entity
falls in the window (section 4.2). -/
def windowPred (window : TimeWindow) (status : QueryStatus) (e : Entity) : Bool :=
  match relevantTimestamp status e with
  | some t => inWindow window t
  | none => false

/-- Modelled from the spec: the actor_filter step of section 4.2 -- with
no filter every entity is retained, otherwise only entities whose actor
is in the set. -/
def actorPred (actor_filter : Option (List String)) (e : Entity) : Bool :=
  match actor_filter with
  | none => true
  | some actors =>
      match e.actor with
      | some a => actors.contains a
      | none => false

/-- Modelled from the spec: the entities the Window Fetcher selects
before ordering (section 4.2) -- the concatenated raw entities of every
scope element, restricted to the window and the actor filter. -/
def selectedEntities (client : FetchClient) (scope : List String)
    (window : TimeWindow) (status : QueryStatus)
    (actor_filter : Option (List String)) : List Entity :=
  (((scope.map client.rawEntities).flatten).filter
      (windowPred window status)).filter (actorPred actor_filter)

/-- Modelled from the spec: fetch_entities (section 4.2) with the
validation rule of section 7; missing from src/ because the metrics
functions realizing the Window Fetcher are pass stubs.  A malformed
window (start > end) raises ValidationError before the client is
consulted; otherwise the raw entities of every scope element are
concatenated, filtered to those whose relevant timestamp lies in the
half-open window, filtered by actor when an actor_filter is supplied,
and sorted ascending by created_at with ties broken by identifier. -/
def fetch_entities (client : FetchClient) (scope : List String)
    (window : TimeWindow) (status : QueryStatus)
    (actor_filter : Option (List String)) : Except PyError (List Entity) :=
  if window.end_ < window.start then
    .error (.validationError "malformed TimeWindow: start > end")
  else
    .ok ((selectedEntities client scope window status actor_filter).insertionSort entityLE)

/-- Modelled from the spec: the grouping selector of the Aggregator
(section 4.4); missing from src/ together with the aggregate contract. -/
inductive GroupBy where
  | actor
  | kind
  | actor_and_kind
  deriving DecidableEq, Repr

/-- Modelled from the spec: a grouping key, an actor name, a kind, or
both (sections 3 and 4.4). -/
inductive GroupKey where
  | actor (a : String)
  | kind (k : EntityKind)
  | actorKind (a : String) (k : EntityKind)
  deriving DecidableEq, Repr

/-- Modelled from the spec: actor key extraction, treating a null actor
as the reserved key "unassigned" (section 4.4). -/
def actorKeyOf (e : Entity) : String :=
  e.actor.getD "unassigned"

/-- Modelled from the spec: the grouping key of an entity under a
selector (section 4.4). -/
def groupKey (g : GroupBy) (e : Entity) : GroupKey :=
  match g with
  | .actor => .actor (actorKeyOf e)
  | .kind => .kind e.kind
  | .actor_and_kind => .actorKind (actorKeyOf e) e.kind

/-- Modelled from the spec: aggregate (section 4.4); missing from src/
because no concrete aggregator exists there.  The Summary maps each
grouping key occurring among the entities to the number of entities
with that key and the number of relations whose parent entity maps to
that key.  A pure, total function: it never raises. -/
def aggregate (entities : List Entity) (relations : List Relation)
    (g : GroupBy) : List (GroupKey × Nat × Nat) :=
  let keys := (entities.map (groupKey g)).dedup
  keys.map (fun k =>
    (k,
     (entities.filter (fun e => groupKey g e == k)).length,
     (relations.filter (fun r =>
       entities.any (fun e => e.identifier == r.parent_id && groupKey g e == k))).length))

/-- A concrete client standing for a live GitHub service during one run:
one organization, one user, four existing repositories. -/
def demoClient : Github where
  get_organization := fun n =>
    if n = "causify-ai" then .ok ⟨["tutorials", "helpers"]⟩
    else .error (.notFoundError n)
  get_user := fun n =>
    if n = "alice" then .ok ⟨["dotfiles"]⟩
    else .error (.notFoundError n)
  get_repo := fun n =>
    if n = "o/r1" then .ok ⟨.ok ["alice", "bob"]⟩
    else if n = "o/r2" then .ok ⟨.ok ["carol"]⟩
    else if n = "o/r3" then .ok ⟨.ok []⟩
    else if n = "o/r4" then .ok ⟨.ok ["dave", "erin"]⟩
    else .error (.notFoundError n)

/-- The list stored for one repository name by get_github_contributors:
the contributor logins when the try block succeeds, the empty list when
it raises. -/
def contributorsOrEmpty (client : Github) (repo_name : String) : List String :=
  match fetchContributors client repo_name with
  | .ok cs => cs
  | .error _ => []

/-- A concrete upstream source for the Window Fetcher: the two entities
of the spec's section 8 scenario, with dates rendered as yyyymmdd
numbers. -/
def demoEntity1 : Entity := ⟨"1", .task, some "alice", 20240102, none, "proj"⟩

/-- Second entity of the spec's section 8 scenario. -/
def demoEntity2 : Entity := ⟨"2", .task, some "bob", 20240105, none, "proj"⟩

/-- A fetch client returning the two scenario entities for any scope
element. -/
def demoFetchClient : FetchClient := ⟨fun _ => [demoEntity1, demoEntity2]⟩

/-- Three tasks, two assigned to alice, one unassigned. -/
def demoTasksList : List Task :=
  [⟨"1", "a", some "alice", 1, none⟩,
   ⟨"2", "b", none, 2, none⟩,
   ⟨"3", "c", some "alice", 3, none⟩]

/-! ## Theorems -/

/-- C7: aggregate applied to an empty entity list and an empty relation
list, for any group_by selector, returns an empty Summary (a mapping
with zero keys); being a total Lean function, it never raises. -/
theorem C7_aggregate_empty : ∀ g : GroupBy, aggregate [] [] g = [] := by
  intro g
  cases g <;> rfl

/-- C5: the aggregation realized by tasks_created_by_user is a pure,
deterministic function: two calls on identical task lists return
identical Summary mappings; the embedding takes no state and performs
no I/O. -/
theorem C5_tasks_created_by_user_deterministic :
    ∀ t1 t2 : List Task, t1 = t2 →
      tasks_created_by_user t1 = tasks_created_by_user t2 := by
  intro t1 t2 h
  rw [h]

/-- Witness for C5 at a concrete task list. -/
theorem C5_tasks_created_by_user_deterministic_witness :
    tasks_created_by_user [⟨"1", "a", some "alice", 2, none⟩] =
      tasks_created_by_user [⟨"1", "a", some "alice", 2, none⟩] :=
  C5_tasks_created_by_user_deterministic
    [⟨"1", "a", some "alice", 2, none⟩] [⟨"1", "a", some "alice", 2, none⟩] rfl

/-- C4 counterexample: a call with a missing explicit token (None) does
not fail when the GITHUB_ACCESS_TOKEN environment variable holds a
non-empty value: the constructor succeeds with the environment token,
contradicting the claim that every call with an empty or missing token
fails. -/
theorem C4_counterexample :
    GitHubAPI_init none (some "envtoken") = .ok ⟨"envtoken"⟩ ∧
      ∀ e, GitHubAPI_init none (some "envtoken") ≠ .error e := by
  refine ⟨rfl, ?_⟩
  intro e h
  simp [GitHubAPI_init, pyTruthy] at h

/-- C4 amended: with an empty or missing explicit token and an empty or
unset GITHUB_ACCESS_TOKEN environment variable, GitHubAPI construction
fails by raising (ValueError in the code, the AuthenticationError of the
spec taxonomy); with a non-empty explicit token it produces a
ready-to-use client handle carrying that token. -/
theorem C4_amended_init_requires_some_token :
    ∀ access_token env_token : Option String,
      (pyTruthy access_token = false → pyTruthy env_token = false →
        ∃ m, GitHubAPI_init access_token env_token = .error (.valueError m)) ∧
      (∀ s : String, access_token = some s → s ≠ "" →
        GitHubAPI_init access_token env_token = .ok ⟨s⟩) := by
  intro access_token env_token
  constructor
  · intro ha he
    cases access_token with
    | none =>
        cases env_token with
        | none => exact ⟨_, rfl⟩
        | some s =>
            simp [pyTruthy] at he
            subst he
            exact ⟨_, rfl⟩
    | some s =>
        simp [pyTruthy] at ha
        subst ha
        cases env_token with
        | none => exact ⟨_, rfl⟩
        | some s =>
            simp [pyTruthy] at he
            subst he
            exact ⟨_, rfl⟩
  · intro s hs hne
    subst hs
    simp [GitHubAPI_init, pyTruthy, hne]

/-- Witness for C4 amended: both conjuncts at concrete inputs. -/
theorem C4_amended_init_requires_some_token_witness :
    (∃ m, GitHubAPI_init (some "") none = .error (.valueError m)) ∧
      GitHubAPI_init (some "tok") none = .ok ⟨"tok"⟩ :=
  ⟨(C4_amended_init_requires_some_token (some "") none).1 (by decide) rfl,
   (C4_amended_init_requires_some_token (some "tok") none).2 "tok" rfl (by decide)⟩

/-- C10: GitHubAPI construction with access_token=None falls back to the
GITHUB_ACCESS_TOKEN environment variable; an explicitly passed non-empty
token takes precedence over the environment (the result is the same as
with no environment variable at all, and carries the explicit token);
and the constructor raises if and only if both the explicit token and
the environment variable are empty or unset. -/
theorem C10_init_env_fallback :
    ∀ access_token env_token : Option String,
      (∀ s : String, access_token = some s → s ≠ "" →
        GitHubAPI_init access_token env_token = GitHubAPI_init (some s) none ∧
          GitHubAPI_init access_token env_token = .ok ⟨s⟩) ∧
      ((∃ e, GitHubAPI_init access_token env_token = .error e) ↔
        (pyTruthy access_token = false ∧ pyTruthy env_token = false)) := by
  intro access_token env_token
  constructor
  · intro s hs hne
    subst hs
    simp [GitHubAPI_init, pyTruthy, hne]
  · constructor
    · rintro ⟨e, he⟩
      cases hat : access_token with
      | none =>
          cases het : env_token with
          | none => exact ⟨rfl, rfl⟩
          | some s =>
              subst hat het
              by_cases hs : s = ""
              · subst hs
                exact ⟨rfl, rfl⟩
              · simp [GitHubAPI_init, pyTruthy, hs] at he
      | some s =>
          subst hat
          by_cases hs : s = ""
          · subst hs
            cases het : env_token with
            | none => exact ⟨rfl, rfl⟩
            | some s2 =>
                subst het
                by_cases hs2 : s2 = ""
                · subst hs2
                  exact ⟨rfl, rfl⟩
                · simp [GitHubAPI_init, pyTruthy, hs2] at he
          · simp [GitHubAPI_init, pyTruthy, hs] at he
    · rintro ⟨ha, he⟩
      cases access_token with
      | none =>
          cases env_token with
          | none => exact ⟨_, rfl⟩
          | some s =>
              simp [pyTruthy] at he
              subst he
              exact ⟨_, rfl⟩
      | some s =>
          simp [pyTruthy] at ha
          subst ha
          cases env_token with
          | none => exact ⟨_, rfl⟩
          | some s2 =>
              simp [pyTruthy] at he
              subst he
              exact ⟨_, rfl⟩

/-- Witness for C10: precedence and the failure characterization at
concrete inputs. -/
theorem C10_init_env_fallback_witness :
    (GitHubAPI_init (some "tok") (some "envtoken") = GitHubAPI_init (some "tok") none ∧
      GitHubAPI_init (some "tok") (some "envtoken") = .ok ⟨"tok"⟩) ∧
      (∃ e, GitHubAPI_init none none = .error e) :=
  ⟨(C10_init_env_fallback (some "tok") (some "envtoken")).1 "tok" rfl (by decide),
   (C10_init_env_fallback none none).2.mpr ⟨rfl, rfl⟩⟩

/-- C2 counterexample: a single task with a null assignee.  The pandas
groupby drops the null-keyed row, so the Summary is empty: there is no
"unassigned" key, and its count is not the number of null-actor entities
(which is 1). -/
theorem C2_counterexample :
    tasks_created_by_user [⟨"1", "t", none, 0, none⟩] = [] ∧
      dictLookup (tasks_created_by_user [⟨"1", "t", none, 0, none⟩]) "unassigned" ≠ some 1 := by
  constructor
  · rfl
  · intro h
    simp [tasks_created_by_user, dictLookup] at h

/-- C9: get_repo_names returns the dictionary with owner = the input
name and the owner's repository names whenever the name resolves as an
organization, or fails as an organization but resolves as a user; it
raises ValueError exactly when both resolutions fail, and ValueError is
the only error it ever raises. -/
theorem C9_get_repo_names_spec :
    ∀ (client : Github) (name : String),
      (∀ o, client.get_organization name = .ok o →
        get_repo_names client name = .ok ⟨name, o.repos⟩) ∧
      (∀ e o, client.get_organization name = .error e →
        client.get_user name = .ok o →
        get_repo_names client name = .ok ⟨name, o.repos⟩) ∧
      ((∃ m, get_repo_names client name = .error (.valueError m)) ↔
        ((∃ e, client.get_organization name = .error e) ∧
          (∃ e, client.get_user name = .error e))) ∧
      (∀ e, get_repo_names client name = .error e → ∃ m, e = .valueError m) := by
  intro client name
  cases h1 : client.get_organization name with
  | ok o => simp [get_repo_names, h1]
  | error e1 =>
      cases h2 : client.get_user name with
      | ok u => simp [get_repo_names, h1, h2]
      | error e2 => simp [get_repo_names, h1, h2]

/-- Witness for C9: a resolvable organization name and an unresolvable
name, on the concrete client. -/
theorem C9_get_repo_names_spec_witness :
    get_repo_names demoClient "causify-ai" = .ok ⟨"causify-ai", ["tutorials", "helpers"]⟩ ∧
      ∃ m, get_repo_names demoClient "ghost" = .error (.valueError m) :=
  ⟨(C9_get_repo_names_spec demoClient "causify-ai").1 ⟨["tutorials", "helpers"]⟩ rfl,
   (C9_get_repo_names_spec demoClient "ghost").2.2.1.mpr ⟨⟨_, rfl⟩, ⟨_, rfl⟩⟩⟩

/-! Lemmas about lookup through Python-style dict assignment. -/

theorem lookup_map_ne (d : List (String × α)) (k n : String) (v : α) (h : n ≠ k) :
    dictLookup (d.map (fun p => if p.1 = k then (k, v) else p)) n = dictLookup d n := by
  induction d with
  | nil => rfl
  | cons p d ih =>
      by_cases hpk : p.1 = k
      · have hkn : k ≠ n := fun hc => h hc.symm
        have hpn : ¬ p.1 = n := fun hc => h (hc.symm.trans hpk)
        simp [dictLookup, hpk, hkn, hpn, ih]
      · by_cases hnp : p.1 = n
        · simp [dictLookup, hpk, hnp, h]
        · simp [dictLookup, hpk, hnp, ih]

theorem lookup_map_self (d : List (String × α)) (k : String) (v : α)
    (h : ∃ p ∈ d, p.1 = k) :
    dictLookup (d.map (fun p => if p.1 = k then (k, v) else p)) k = some v := by
  induction d with
  | nil => simp at h
  | cons p d ih =>
      by_cases hpk : p.1 = k
      · simp [dictLookup, hpk]
      · have h2 : ∃ q ∈ d, q.1 = k := by
          rcases h with ⟨q, hq, hqk⟩
          rcases List.mem_cons.mp hq with hq1 | hq2
          · exact absurd (hq1 ▸ hqk) hpk
          · exact ⟨q, hq2, hqk⟩
        simp [dictLookup, hpk, ih h2]

theorem lookup_append_new (d : List (String × α)) (k n : String) (v : α)
    (h : ¬ ∃ p ∈ d, p.1 = k) :
    dictLookup (d ++ [(k, v)]) n = if n = k then some v else dictLookup d n := by
  induction d with
  | nil =>
      by_cases hnk : n = k
      · simp [dictLookup, hnk]
      · have : ¬ k = n := fun hc => hnk hc.symm
        simp [dictLookup, hnk, this]
  | cons p d ih =>
      have hpk : p.1 ≠ k := fun hc => h ⟨p, List.mem_cons_self p d, hc⟩
      have h2 : ¬ ∃ q ∈ d, q.1 = k := fun ⟨q, hq, hqk⟩ =>
        h ⟨q, List.mem_cons_of_mem p hq, hqk⟩
      by_cases hnp : p.1 = n
      · have hnk : ¬ n = k := fun hc => hpk (hnp.trans hc)
        simp [dictLookup, hnp, hnk]
      · simp [dictLookup, hnp, ih h2]

theorem lookup_dictInsert (d : List (String × α)) (k n : String) (v : α) :
    dictLookup (dictInsert d k v) n = if n = k then some v else dictLookup d n := by
  unfold dictInsert
  by_cases h : ∃ p ∈ d, p.1 = k
  · rw [if_pos h]
    by_cases hn : n = k
    · subst hn
      rw [if_pos rfl, lookup_map_self d n v h]
    · rw [if_neg hn, lookup_map_ne d k n v hn]
  · rw [if_neg h]
    exact lookup_append_new d k n v h

theorem lookup_contributors_foldl (client : Github) :
    ∀ (names : List String) (d : List (String × List String)) (n : String),
      dictLookup (names.foldl
          (fun result repo_name =>
            match fetchContributors client repo_name with
            | .ok contributors => dictInsert result repo_name contributors
            | .error _ => dictInsert result repo_name [])
          d) n
        = if n ∈ names then some (contributorsOrEmpty client n) else dictLookup d n := by
  intro names
  induction names with
  | nil => intro d n; simp
  | cons nm rest ih =>
      intro d n
      rw [List.foldl_cons]
      have hstep :
          (match fetchContributors client nm with
            | .ok contributors => dictInsert d nm contributors
            | .error _ => dictInsert d nm [])
            = dictInsert d nm (contributorsOrEmpty client nm) := by
        cases h : fetchContributors client nm <;> simp [contributorsOrEmpty, h]
      rw [hstep, ih]
      by_cases hr : n ∈ rest
      · simp [hr, List.mem_cons]
      · by_cases hnm : n = nm
        · subst hnm
          simp [hr, lookup_dictInsert]
        · simp [hr, hnm, lookup_dictInsert, List.mem_cons]

/-- C3: get_github_contributors has partial-failure semantics.  It is a
total function (it never raises), every name in the batch receives an
entry in the returned dictionary, a name whose fetch succeeds is mapped
to its contributor logins, and a name whose fetch raises (for example a
NotFoundError on an identifier that no longer exists) is mapped to the
empty list, the caller-visible marker, without aborting the rest of the
batch. -/
theorem C3_get_github_contributors_batch_resilient :
    ∀ (client : Github) (repo_names : List String) (n : String),
      n ∈ repo_names →
        (∀ cs, fetchContributors client n = .ok cs →
          dictLookup (get_github_contributors client repo_names) n = some cs) ∧
        (∀ e, fetchContributors client n = .error e →
          dictLookup (get_github_contributors client repo_names) n = some []) := by
  intro client repo_names n hn
  have h := lookup_contributors_foldl client repo_names [] n
  rw [if_pos hn] at h
  constructor
  · intro cs hcs
    rw [get_github_contributors, h, contributorsOrEmpty, hcs]
  · intro e he
    rw [get_github_contributors, h, contributorsOrEmpty, he]

/-- Witness for C3: a batch of five identifiers of which one is invalid;
the valid ones keep their contributor lists and the invalid one is
mapped to the empty list. -/
theorem C3_get_github_contributors_batch_resilient_witness :
    dictLookup (get_github_contributors demoClient
        ["o/r1", "o/r2", "o/bad", "o/r3", "o/r4"]) "o/r1" = some ["alice", "bob"] ∧
      dictLookup (get_github_contributors demoClient
        ["o/r1", "o/r2", "o/bad", "o/r3", "o/r4"]) "o/bad" = some [] :=
  ⟨(C3_get_github_contributors_batch_resilient demoClient
      ["o/r1", "o/r2", "o/bad", "o/r3", "o/r4"] "o/r1" (by simp)).1
      ["alice", "bob"] rfl,
   (C3_get_github_contributors_batch_resilient demoClient
      ["o/r1", "o/r2", "o/bad", "o/r3", "o/r4"] "o/bad" (by simp)).2
      (.notFoundError "o/bad") rfl⟩

/-- C1: fetch_entities returns only entities whose relevant timestamp
(created_at for created queries, closed_at for completed queries) lies
in the half-open window [start, end): it never returns an entity with
timestamp below start or at or above end. -/
theorem C1_fetch_entities_window_bounds :
    ∀ (client : FetchClient) (scope : List String) (window : TimeWindow)
      (status : QueryStatus) (actor_filter : Option (List String))
      (l : List Entity),
      fetch_entities client scope window status actor_filter = .ok l →
        ∀ e ∈ l, ∃ t, relevantTimestamp status e = some t ∧
          window.start ≤ t ∧ t < window.end_ := by
  intro client scope window status af l h e he
  rw [fetch_entities] at h
  by_cases hw : window.end_ < window.start
  · rw [if_pos hw] at h
    cases h
  · rw [if_neg hw] at h
    injection h with h
    rw [← h, List.mem_insertionSort] at he
    have hwin : windowPred window status e = true :=
      (List.mem_filter.mp (List.mem_filter.mp he).1).2
    rw [windowPred] at hwin
    cases hts : relevantTimestamp status e with
    | none => rw [hts] at hwin; cases hwin
    | some t =>
        rw [hts] at hwin
        simp only [inWindow, Bool.and_eq_true, decide_eq_true_eq] at hwin
        exact ⟨t, rfl, hwin⟩

/-- Witness for C1: the scenario window [2024-01-01, 2024-01-04) keeps
only entity 1, whose created_at obeys the bounds. -/
theorem C1_fetch_entities_window_bounds_witness :
    ∃ t, relevantTimestamp .created demoEntity1 = some t ∧
      20240101 ≤ t ∧ t < 20240104 :=
  C1_fetch_entities_window_bounds demoFetchClient ["proj"] ⟨20240101, 20240104⟩
    .created none [demoEntity1] rfl demoEntity1 (by decide)

/-- C6: every list fetch_entities returns is sorted ascending by
created_at with ties broken by identifier under string comparison
(entityLE), and two calls with identical inputs return the same output
sequence (the embedding is a pure function of its arguments). -/
theorem C6_fetch_entities_sorted :
    ∀ (client : FetchClient) (scope : List String) (window : TimeWindow)
      (status : QueryStatus) (actor_filter : Option (List String))
      (l : List Entity),
      fetch_entities client scope window status actor_filter = .ok l →
        l.Sorted entityLE ∧
          fetch_entities client scope window status actor_filter =
            fetch_entities client scope window status actor_filter := by
  intro client scope window status af l h
  refine ⟨?_, rfl⟩
  rw [fetch_entities] at h
  by_cases hw : window.end_ < window.start
  · rw [if_pos hw] at h
    cases h
  · rw [if_neg hw] at h
    injection h with h
    rw [← h]
    exact List.sorted_insertionSort entityLE _

/-- Witness for C6: the full scenario window keeps both entities and
returns them in ascending created_at order. -/
theorem C6_fetch_entities_sorted_witness :
    List.Sorted entityLE [demoEntity1, demoEntity2] :=
  (C6_fetch_entities_sorted demoFetchClient ["proj"] ⟨20240101, 20240110⟩
    .created none [demoEntity1, demoEntity2] rfl).1

/-- C8: for a window with start > end every fetch raises
ValidationError, and does so before any network call: the result does
not depend on the client at all, so the remote state and all fetch
results are untouched; for a window with start ≤ end no ValidationError
is raised (the fetch succeeds). -/
theorem C8_fetch_entities_validation :
    ∀ (client : FetchClient) (scope : List String) (window : TimeWindow)
      (status : QueryStatus) (actor_filter : Option (List String)),
      (window.end_ < window.start →
        (∃ m, fetch_entities client scope window status actor_filter =
          .error (.validationError m)) ∧
        ∀ client2 : FetchClient,
          fetch_entities client scope window status actor_filter =
            fetch_entities client2 scope window status actor_filter) ∧
      (window.start ≤ window.end_ →
        ∃ l, fetch_entities client scope window status actor_filter = .ok l) := by
  intro client scope window status af
  constructor
  · intro hw
    constructor
    · exact ⟨_, by rw [fetch_entities, if_pos hw]⟩
    · intro client2
      rw [fetch_entities, fetch_entities, if_pos hw, if_pos hw]
  · intro hle
    have hw : ¬ window.end_ < window.start := not_lt.mpr hle
    exact ⟨_, by rw [fetch_entities, if_neg hw]⟩

/-- Witness for C8: a reversed window raises ValidationError regardless
of the client, a well-formed window succeeds. -/
theorem C8_fetch_entities_validation_witness :
    ((∃ m, fetch_entities demoFetchClient ["proj"] ⟨5, 3⟩ .created none =
        .error (.validationError m)) ∧
      ∀ client2 : FetchClient,
        fetch_entities demoFetchClient ["proj"] ⟨5, 3⟩ .created none =
          fetch_entities client2 ["proj"] ⟨5, 3⟩ .created none) ∧
      ∃ l, fetch_entities demoFetchClient ["proj"] ⟨3, 5⟩ .created none = .ok l :=
  ⟨(C8_fetch_entities_validation demoFetchClient ["proj"] ⟨5, 3⟩ .created none).1
      (by decide),
   (C8_fetch_entities_validation demoFetchClient ["proj"] ⟨3, 5⟩ .created none).2
      (by decide)⟩

/-! Counting lemmas for the grouped sums of tasks_created_by_user. -/

theorem sum_map_add_distrib {β : Type} (f g : β → Nat) :
    ∀ l : List β, (l.map (fun k => f k + g k)).sum = (l.map f).sum + (l.map g).sum := by
  intro l
  induction l with
  | nil => rfl
  | cons a l ih =>
      simp only [List.map_cons, List.sum_cons, ih]
      omega

theorem sum_map_indicator (ob : Option String) :
    ∀ keys : List String, keys.Nodup →
      (keys.map (fun k => if ob = some k then 1 else 0)).sum =
        (match ob with
         | some b => if b ∈ keys then 1 else 0
         | none => 0) := by
  intro keys
  induction keys with
  | nil =>
      intro _
      cases ob <;> simp
  | cons k rest ih =>
      intro hnd
      have hk : k ∉ rest := (List.nodup_cons.mp hnd).1
      have hrest : rest.Nodup := (List.nodup_cons.mp hnd).2
      cases ob with
      | none => simp [ih hrest]
      | some b =>
          rw [List.map_cons, List.sum_cons, ih hrest]
          by_cases hbk : b = k
          · subst hbk
            simp [hk]
          · simp [hbk, List.mem_cons]

theorem sum_filter_counts (keys : List String) (hnd : keys.Nodup) :
    ∀ tasks : List Task,
      (keys.map (fun k => (tasks.filter (fun t => t.assignee = some k)).length)).sum =
        (tasks.filter (fun t =>
          match t.assignee with
          | some b => decide (b ∈ keys)
          | none => false)).length := by
  intro tasks
  induction tasks with
  | nil => simp
  | cons t ts ih =>
      have hstep : ∀ (p : Task → Bool) (l : List Task),
          ((t :: l).filter p).length = (if p t then 1 else 0) + (l.filter p).length := by
        intro p l
        rw [List.filter_cons]
        cases hpt : p t <;> simp [Nat.add_comm]
      rw [hstep]
      have hmap :
          keys.map (fun k => ((t :: ts).filter (fun tt => tt.assignee = some k)).length)
            = keys.map (fun k => (if t.assignee = some k then 1 else 0) +
                (ts.filter (fun tt => tt.assignee = some k)).length) := by
        apply List.map_congr_left
        intro k _
        rw [hstep]
        simp
      rw [hmap, sum_map_add_distrib, sum_map_indicator _ keys hnd, ih]
      cases hta : t.assignee with
      | none => simp
      | some b => simp

/-- C2 amended: the grouping realized by the source
(pandas groupby on assignee) does not use a reserved "unassigned" key:
entities with null/missing actor are dropped from the Summary entirely.
Every key of the Summary is the actor of some entity, each key's count
is exactly the number of entities with that actor, and the counts sum to
the number of entities with a non-null actor, so null-actor entities are
counted under no key. -/
theorem C2_amended_tasks_created_by_user_drops_null_actors :
    ∀ tasks : List Task,
      (∀ p ∈ tasks_created_by_user tasks,
        (∃ t ∈ tasks, t.assignee = some p.1) ∧
          p.2 = (tasks.filter (fun t => t.assignee = some p.1)).length) ∧
      ((tasks_created_by_user tasks).map Prod.snd).sum =
        (tasks.filter (fun t => t.assignee.isSome)).length := by
  intro tasks
  constructor
  · intro p hp
    rw [tasks_created_by_user] at hp
    rcases List.mem_map.mp hp with ⟨k, hk, rfl⟩
    rw [List.mem_insertionSort, List.mem_dedup] at hk
    rcases List.mem_filterMap.mp hk with ⟨t, ht, hta⟩
    exact ⟨⟨t, ht, hta⟩, rfl⟩
  · have hnd : ((tasks.filterMap (fun t => t.assignee)).dedup.insertionSort
        (fun a b => a ≤ b)).Nodup :=
      (List.perm_insertionSort _ _).symm.nodup (List.nodup_dedup _)
    have hsum := sum_filter_counts
      ((tasks.filterMap (fun t => t.assignee)).dedup.insertionSort (fun a b => a ≤ b))
      hnd tasks
    have hcong :
        tasks.filter (fun t =>
          match t.assignee with
          | some b => decide (b ∈ (tasks.filterMap (fun t => t.assignee)).dedup.insertionSort
              (fun a b => a ≤ b))
          | none => false)
          = tasks.filter (fun t => t.assignee.isSome) := by
      apply List.filter_congr
      intro t ht
      cases hta : t.assignee with
      | none => simp [hta]
      | some b =>
          have hb : b ∈ (tasks.filterMap (fun t => t.assignee)).dedup.insertionSort
              (fun a b => a ≤ b) := by
            rw [List.mem_insertionSort, List.mem_dedup]
            exact List.mem_filterMap.mpr ⟨t, ht, hta⟩
          simp [hta]
          exact ⟨t, ht, hta⟩
    rw [tasks_created_by_user, List.map_map]
    rw [show (Prod.snd ∘ fun k : String =>
        (k, (tasks.filter (fun t => t.assignee = some k)).length))
        = (fun k : String => (tasks.filter (fun t => t.assignee = some k)).length)
      from rfl]
    rw [hsum, hcong]

/-- Witness for C2 amended: on the concrete task list, the key "alice"
has count 2 and the counts sum to the number of non-null-actor tasks. -/
theorem C2_amended_tasks_created_by_user_drops_null_actors_witness :
    ((∃ t ∈ demoTasksList, t.assignee = some "alice") ∧
      (2 : Nat) = (demoTasksList.filter (fun t => t.assignee = some "alice")).length) ∧
      ((tasks_created_by_user demoTasksList).map Prod.snd).sum =
        (demoTasksList.filter (fun t => t.assignee.isSome)).length :=
  ⟨(C2_amended_tasks_created_by_user_drops_null_actors demoTasksList).1
      ("alice", 2) (by decide),
   (C2_amended_tasks_created_by_user_drops_null_actors demoTasksList).2⟩

end Tutorials
